import Mathlib

/-!
Verification of the spatial-join and aggregation core of the beaver
watershed pipeline (src/lambda/handler.py).

The embedding follows the source:
* raw rows carry possibly-missing (`Option`) or possibly-malformed
  (`RawValue`) fields, as pandas columns do before cleaning;
* numeric column values are rationals (the computable carrier for the
  exact arithmetic the proofs use); the great-circle distance is a real
  number computed with `Real.sin`, `Real.cos`, `Real.arcsin`;
* pandas row operations become list operations: `dropna` is a
  `filterMap`, `drop_duplicates` keeps the first occurrence of each
  distinct row, `groupby(...).mean()` groups by key and averages the
  non-null values of each group;
* `np.argmin` returns the first index attaining the minimum, embedded
  as a fold that replaces the current best only on a strictly smaller
  later value;
* exceptions become `Except`: the `ValueError` that `np.argmin` raises
  on an empty station table is the `noStationsAvailable` error, and the
  top-level `try/except` of `lambda_handler` is a `match` on the
  pipeline's `Except` result.
-/

/-- A raw GBIF occurrence row after the column selection of
handler.py line 57: the two coordinate columns may be missing (pandas
NaN, embedded as `none`); the remaining selected columns (species,
year, month, day, stateProvince, country) are carried opaquely as
`attrs`. -/
structure RawBeaverRow where
  decimalLatitude : Option ℚ
  decimalLongitude : Option ℚ
  attrs : List (String × String)
deriving DecidableEq

/-- A beaver occurrence row that survived
`df.dropna(subset=['decimalLatitude', 'decimalLongitude'])`
(handler.py line 58): both coordinates are present. -/
structure SubjectPoint where
  decimalLatitude : ℚ
  decimalLongitude : ℚ
  attrs : List (String × String)
deriving DecidableEq

/-- handler.py lines 56-59: the validation step of `fetch_beaver_data`.
It keeps exactly the rows whose two coordinate columns are present
(`dropna`); no further check is applied to the coordinate values. -/
def fetch_beaver_validate (rows : List RawBeaverRow) : List SubjectPoint :=
  rows.filterMap fun r =>
    match r.decimalLatitude, r.decimalLongitude with
    | some la, some lo => some ⟨la, lo, r.attrs⟩
    | _, _ => none

/-- A raw `dissolved_oxygen` column value as fetched from the USGS
response: either a numeric string (carried as its numeric value) or a
malformed string that `pd.to_numeric(..., errors='coerce')` cannot
parse. -/
inductive RawValue where
  | num (q : ℚ)
  | malformed (s : String)
deriving DecidableEq

/-- handler.py line 102: `pd.to_numeric(..., errors='coerce')` on one
value. Coercion failure yields null (`none`); the function is total,
so no exception is raised. -/
def to_numeric : RawValue → Option ℚ
  | .num q => some q
  | .malformed _ => none

/-- A raw water-quality reading row as built in
`fetch_water_quality_data` (handler.py lines 92-99), before the
numeric coercion of line 102. -/
structure RawReadingRow where
  site_name : String
  latitude : ℚ
  longitude : ℚ
  datetime : String
  dissolved_oxygen : RawValue
deriving DecidableEq

/-- A reading row after the numeric coercion of handler.py line 102:
`dissolved_oxygen` is numeric or null. -/
structure ReadingRow where
  site_name : String
  latitude : ℚ
  longitude : ℚ
  datetime : String
  dissolved_oxygen : Option ℚ
deriving DecidableEq

/-- handler.py line 102 applied to the whole column:
`df['dissolved_oxygen'] = pd.to_numeric(df['dissolved_oxygen'], errors='coerce')`. -/
def coerce_water (rows : List RawReadingRow) : List ReadingRow :=
  rows.map fun r =>
    ⟨r.site_name, r.latitude, r.longitude, r.datetime, to_numeric r.dissolved_oxygen⟩

/-- The station-table row of handler.py line 111: the three columns
`site_name`, `latitude`, `longitude` of a reading. -/
structure Station where
  site_name : String
  latitude : ℚ
  longitude : ℚ
deriving DecidableEq

/-- Column selection `df_water[['site_name', 'latitude', 'longitude']]`
of handler.py line 111. -/
def stationOfRow (r : ReadingRow) : Station :=
  ⟨r.site_name, r.latitude, r.longitude⟩

/-- Worker for `drop_duplicates`: scan the list keeping the rows not
seen before. -/
def drop_duplicates_from {α : Type} [DecidableEq α] (seen : List α) : List α → List α
  | [] => []
  | a :: rest =>
      if a ∈ seen then drop_duplicates_from seen rest
      else a :: drop_duplicates_from (a :: seen) rest

/-- pandas `DataFrame.drop_duplicates()` with the default
`keep='first'` (handler.py line 111): keep the first occurrence of
each distinct row, preserving order. Note it deduplicates whole rows —
here the full (site_name, latitude, longitude) triple — not the
`site_name` column alone. -/
def drop_duplicates {α : Type} [DecidableEq α] (l : List α) : List α :=
  drop_duplicates_from [] l

/-- One group of `df_water.groupby('site_name')['dissolved_oxygen'].mean()`
(handler.py line 146). pandas `mean` skips nulls in both the numerator
and the denominator; a group whose values are all null gets mean NaN,
embedded as `none`. -/
def group_mean (rows : List ReadingRow) (site : String) : Option ℚ :=
  let vals := (rows.filter fun r => r.site_name = site).filterMap fun r => r.dissolved_oxygen
  if vals.isEmpty then none else some (vals.sum / (vals.length : ℚ))

/-- handler.py lines 146-147: the `avg_do` table, one row per distinct
`site_name` occurring in `df_water`, carrying that group's mean.
pandas sorts the group keys; key order is immaterial downstream (the
table is only consumed by a keyed merge), so the embedding lists the
keys in first-occurrence order. -/
def avg_do (rows : List ReadingRow) : List (String × Option ℚ) :=
  (drop_duplicates (rows.map fun r => r.site_name)).map fun s => (s, group_mean rows s)

/-- handler.py lines 122-128. With `rlat = np.radians(lat) = lat*π/180`
and likewise for longitudes, the loop body computes
`a = sin(dlat/2)**2 + cos(rlat1)*cos(rlat2)*sin(dlon/2)**2` and the
distance `2 * 6371 * arcsin(sqrt(a))`. No clamping of `a` appears in
the source. -/
noncomputable def haversine (lat1 lon1 lat2 lon2 : ℝ) : ℝ :=
  2 * 6371 * Real.arcsin (Real.sqrt
    (Real.sin ((lat2 * Real.pi / 180 - lat1 * Real.pi / 180) / 2) ^ 2 +
      Real.cos (lat1 * Real.pi / 180) * Real.cos (lat2 * Real.pi / 180) *
        Real.sin ((lon2 * Real.pi / 180 - lon1 * Real.pi / 180) / 2) ^ 2))

/-- The distance of handler.py lines 122-128 from one beaver row to
one station row (the coordinate columns are cast into ℝ). -/
noncomputable def subject_station_distance (b : SubjectPoint) (s : Station) : ℝ :=
  haversine (b.decimalLatitude : ℝ) (b.decimalLongitude : ℝ)
    (s.latitude : ℝ) (s.longitude : ℝ)

/-- `np.argmin` over a list of rows paired with their value
(handler.py line 130): the first index attaining the minimum wins, so
the current best is replaced only by a strictly smaller later value.
`none` exactly on the empty list, where `np.argmin` raises
`ValueError`. -/
noncomputable def argmin_first {α : Type} : List (α × ℝ) → Option (α × ℝ)
  | [] => none
  | p :: rest =>
      match argmin_first rest with
      | none => some p
      | some q => if q.2 < p.2 then some q else some p

/-- handler.py lines 121-132, one iteration: distances from subject
`b` to every station, then `np.argmin` picking the nearest station
together with its distance. -/
noncomputable def nearest_station (stations : List Station) (b : SubjectPoint) :
    Option (Station × ℝ) :=
  argmin_first (stations.map fun s => (s, subject_station_distance b s))

/-- One row of the final joined frame (handler.py lines 136-149): the
beaver row, the matched station columns of line 138-143, and the
aggregate column merged in on line 149 (`none` when the merge finds no
aggregate value, pandas NaN). -/
structure JoinedRecord where
  beaver : SubjectPoint
  nearest : Station
  distance_km : ℝ
  avg_dissolved_oxygen : Option ℚ

/-- The failure `spatial_join` can signal: `np.argmin` on the empty
station table raises `ValueError("attempt to get argmin of an empty
sequence")` (handler.py line 130), the no-stations-available
condition. -/
inductive JoinError where
  | noStationsAvailable
deriving DecidableEq

/-- handler.py lines 121-132 with the merge of line 149 folded in per
row: match the beaver row to its nearest station, then look the
station's aggregate up in the `avg_do` table (`how='left'`: a missing
key yields null rather than dropping the row; the table's keys are
distinct, so lookup of the first matching key is the merge). -/
noncomputable def join_row (stations : List Station) (agg : List (String × Option ℚ))
    (b : SubjectPoint) : Except JoinError JoinedRecord :=
  match nearest_station stations b with
  | none => .error .noStationsAvailable
  | some (s, d) => .ok ⟨b, s, d, (agg.lookup s.site_name).join⟩

/-- The `for` loop over beaver rows (handler.py line 121): apply `f`
to each element in order, propagating the first raised error, as a
Python loop body raising an exception does. -/
def mapExcept {ε α β : Type} (f : α → Except ε β) : List α → Except ε (List β)
  | [] => .ok []
  | a :: rest =>
      match f a with
      | .error e => .error e
      | .ok b =>
          match mapExcept f rest with
          | .error e => .error e
          | .ok bs => .ok (b :: bs)

/-- handler.py lines 106-151, `spatial_join`: build the deduplicated
station table (line 111) and the per-station aggregate table (lines
146-147), then match every beaver row and assemble the joined rows in
input order. -/
noncomputable def spatial_join (df_beavers : List SubjectPoint) (df_water : List ReadingRow) :
    Except JoinError (List JoinedRecord) :=
  let df_stations := drop_duplicates (df_water.map stationOfRow)
  let agg := avg_do df_water
  mapExcept (join_row df_stations agg) df_beavers

/-- The HTTP-style response dictionary `lambda_handler` returns
(handler.py lines 234-237 and 241-244). -/
structure LambdaResponse where
  statusCode : ℕ
  body : String
deriving DecidableEq

/-- The message of the `ValueError` that `np.argmin` raises on an
empty sequence, as `str(e)` renders it in the handler's except block. -/
def describeError : JoinError → String
  | .noStationsAvailable => "attempt to get argmin of an empty sequence"

/-- The body of the `try` block of `lambda_handler` (handler.py lines
205-236). The effectful steps — the two API fetches, the S3 put and
the RDS load — are external collaborators, so their outcomes are
inputs; the pipeline chains them, runs the validation, coercion and
spatial join, and yields the joined record count, propagating the
first failure. -/
noncomputable def pipeline_run
    (fetch_beavers : Except String (List RawBeaverRow))
    (fetch_water : Except String (List RawReadingRow))
    (s3_put : Except String Unit) (rds_load : Except String Unit) :
    Except String ℕ :=
  match fetch_beavers with
  | .error e => .error e
  | .ok braw =>
    match fetch_water with
    | .error e => .error e
    | .ok wraw =>
      match (spatial_join (fetch_beaver_validate braw) (coerce_water wraw)).mapError
          describeError with
      | .error e => .error e
      | .ok df_final =>
        match s3_put with
        | .error e => .error e
        | .ok _ =>
          match rds_load with
          | .error e => .error e
          | .ok _ => .ok df_final.length

/-- handler.py lines 198-244, `lambda_handler`: run the pipeline under
`try`; on success return status 200 with the record-count message, on
any raised exception return status 500 with the error message. The
`event` argument is ignored by the source as well. -/
noncomputable def lambda_handler (event : List (String × String))
    (fetch_beavers : Except String (List RawBeaverRow))
    (fetch_water : Except String (List RawReadingRow))
    (s3_put : Except String Unit) (rds_load : Except String Unit) : LambdaResponse :=
  match pipeline_run fetch_beavers fetch_water s3_put rds_load with
  | .ok n => ⟨200, "Pipeline complete. " ++ toString n ++ " records processed."⟩
  | .error e => ⟨500, "Pipeline failed: " ++ e⟩

/-- Concrete input for the aggregation scenario: station "A" with
raw values "7.2", "bad", "8.0". -/
def c6rows : List RawReadingRow :=
  [⟨"A", 38, -122, "t1", .num (72 / 10)⟩,
   ⟨"A", 38, -122, "t2", .malformed "bad"⟩,
   ⟨"A", 38, -122, "t3", .num 8⟩]

/-- Concrete input for the all-null-station scenario: station "A"
whose only reading is malformed. -/
def c7rows : List RawReadingRow :=
  [⟨"A", 38, -122, "t1", .malformed "bad"⟩]

/-- Concrete reading rows carrying one station identifier with two
conflicting coordinate pairs. -/
def c2rows : List ReadingRow :=
  [⟨"A", 1, 2, "t1", some 5⟩, ⟨"A", 3, 4, "t2", some 6⟩]

/-- A raw beaver row with present but out-of-range latitude. -/
def c8row : RawBeaverRow :=
  ⟨some 100, some 0, []⟩

/-- A concrete subject point for the matcher scenario. -/
def c1subject : SubjectPoint :=
  ⟨38, -122, []⟩

/-- The tie-break scenario's station table: two stations with the same
coordinates, ordered "X" before "Y". -/
def c1stations : List Station :=
  [⟨"X", 0, 0⟩, ⟨"Y", 0, 0⟩]

/-- A raw beaver row list whose one row has both coordinates present. -/
def c5raws : List RawBeaverRow :=
  [⟨some 38, some (-122), []⟩]

/-- A one-reading water table, giving a one-station table. -/
def c5water : List ReadingRow :=
  [⟨"A", 38, -122, "t1", some 5⟩]

/-- Modelled from the spec: the clamped haversine of spec section 4.2,
which demands that `a` "must be clamped to [0,1] before the square
root/asin". The source (handler.py lines 127-128) has no such clamp;
this definition exists to compare the spec's formula against the
source's. `np.clip(a, 0, 1)` is `min 1 (max 0 a)`. -/
noncomputable def haversine_clamped (lat1 lon1 lat2 lon2 : ℝ) : ℝ :=
  2 * 6371 * Real.arcsin (Real.sqrt (min 1 (max 0
    (Real.sin ((lat2 * Real.pi / 180 - lat1 * Real.pi / 180) / 2) ^ 2 +
      Real.cos (lat1 * Real.pi / 180) * Real.cos (lat2 * Real.pi / 180) *
        Real.sin ((lon2 * Real.pi / 180 - lon1 * Real.pi / 180) / 2) ^ 2))))

/-! ### Lemmas about `drop_duplicates` -/

lemma drop_duplicates_from_sublist {α : Type} [DecidableEq α] (l : List α) :
    ∀ seen, (drop_duplicates_from seen l).Sublist l := by
  induction l with
  | nil => intro seen; simp [drop_duplicates_from]
  | cons a rest ih =>
      intro seen
      simp only [drop_duplicates_from]
      by_cases h : a ∈ seen
      · rw [if_pos h]; exact (ih seen).cons a
      · rw [if_neg h]; exact (ih (a :: seen)).cons₂ a

lemma mem_drop_duplicates_from {α : Type} [DecidableEq α] (l : List α) :
    ∀ seen x, x ∈ drop_duplicates_from seen l ↔ x ∈ l ∧ x ∉ seen := by
  induction l with
  | nil => intro seen x; simp [drop_duplicates_from]
  | cons a rest ih =>
      intro seen x
      simp only [drop_duplicates_from]
      by_cases h : a ∈ seen
      · rw [if_pos h, ih seen x]
        constructor
        · rintro ⟨hx, hs⟩; exact ⟨List.mem_cons_of_mem a hx, hs⟩
        · rintro ⟨hx, hs⟩
          rcases List.mem_cons.mp hx with rfl | hx
          · exact absurd h hs
          · exact ⟨hx, hs⟩
      · rw [if_neg h]
        simp only [List.mem_cons, ih (a :: seen) x]
        constructor
        · rintro (rfl | ⟨hx, hs⟩)
          · exact ⟨Or.inl rfl, h⟩
          · exact ⟨Or.inr hx, fun hmem => hs (Or.inr hmem)⟩
        · rintro ⟨hx, hs⟩
          rcases hx with rfl | hx
          · exact Or.inl rfl
          · by_cases hxa : x = a
            · exact Or.inl hxa
            · exact Or.inr ⟨hx, fun hmem => hmem.elim hxa hs⟩

lemma nodup_drop_duplicates_from {α : Type} [DecidableEq α] (l : List α) :
    ∀ seen, (drop_duplicates_from seen l).Nodup := by
  induction l with
  | nil => intro seen; simp [drop_duplicates_from]
  | cons a rest ih =>
      intro seen
      simp only [drop_duplicates_from]
      by_cases h : a ∈ seen
      · rw [if_pos h]; exact ih seen
      · rw [if_neg h]
        refine List.nodup_cons.mpr ⟨?_, ih (a :: seen)⟩
        intro hmem
        exact ((mem_drop_duplicates_from rest (a :: seen) a).mp hmem).2
          (List.mem_cons_self a seen)

lemma mem_drop_duplicates {α : Type} [DecidableEq α] (l : List α) (x : α) :
    x ∈ drop_duplicates l ↔ x ∈ l := by
  simp [drop_duplicates, mem_drop_duplicates_from]

lemma nodup_drop_duplicates {α : Type} [DecidableEq α] (l : List α) :
    (drop_duplicates l).Nodup :=
  nodup_drop_duplicates_from l []

lemma drop_duplicates_sublist {α : Type} [DecidableEq α] (l : List α) :
    (drop_duplicates l).Sublist l :=
  drop_duplicates_from_sublist l []

lemma drop_duplicates_ne_nil {α : Type} [DecidableEq α] (l : List α) (h : l ≠ []) :
    drop_duplicates l ≠ [] := by
  intro hnil
  rcases l with _ | ⟨a, rest⟩
  · exact h rfl
  · have : a ∈ drop_duplicates (a :: rest) :=
      (mem_drop_duplicates _ a).mpr (List.mem_cons_self a rest)
    rw [hnil] at this
    exact List.not_mem_nil a this

/-! ### Lemmas about `argmin_first` (the `np.argmin` embedding) -/

lemma argmin_first_spec {α : Type} (l : List (α × ℝ)) (hne : l ≠ []) :
    ∃ i, ∃ hi : i < l.length, argmin_first l = some l[i] ∧
      (∀ j (hj : j < l.length), (l[i]).2 ≤ (l[j]).2) ∧
      (∀ j (hj : j < l.length), j < i → (l[i]).2 < (l[j]).2) := by
  induction l with
  | nil => exact absurd rfl hne
  | cons p rest ih =>
      by_cases hr : rest = []
      · subst hr
        refine ⟨0, by simp, by simp [argmin_first], ?_, ?_⟩
        · intro j hj
          have hj0 : j = 0 := by simpa using hj
          subst hj0
          exact le_refl _
        · intro j hj hj0
          omega
      · obtain ⟨i, hi, hsome, hmin, hfirst⟩ := ih hr
        by_cases hlt : (rest[i]).2 < p.2
        · refine ⟨i + 1, by simpa using Nat.succ_lt_succ hi, ?_, ?_, ?_⟩
          · simp only [argmin_first, hsome, if_pos hlt, List.getElem_cons_succ]
          · intro j hj
            cases j with
            | zero =>
                simp only [List.getElem_cons_succ, List.getElem_cons_zero]
                exact hlt.le
            | succ k =>
                simp only [List.getElem_cons_succ]
                simp only [List.length_cons] at hj
                exact hmin k (by omega)
          · intro j hj hji
            cases j with
            | zero =>
                simp only [List.getElem_cons_succ, List.getElem_cons_zero]
                exact hlt
            | succ k =>
                simp only [List.getElem_cons_succ]
                exact hfirst k (by omega) (by omega)
        · refine ⟨0, by simp, ?_, ?_, ?_⟩
          · simp only [argmin_first, hsome, if_neg hlt, List.getElem_cons_zero]
          · intro j hj
            cases j with
            | zero => exact le_refl _
            | succ k =>
                simp only [List.getElem_cons_succ, List.getElem_cons_zero]
                simp only [List.length_cons] at hj
                exact le_trans (not_lt.mp hlt) (hmin k (by omega))
          · intro j hj hji
            omega

/-! ### Lemmas about keyed lookup and `mapExcept` -/

lemma lookup_map_self {β : Type} (l : List String) (f : String → β) (site : String)
    (h : site ∈ l) : ((l.map fun s => (s, f s)).lookup site) = some (f site) := by
  induction l with
  | nil => cases h
  | cons a rest ih =>
      by_cases hx : site = a
      · subst hx
        simp [List.lookup]
      · have hba : (site == a) = false := by simpa using hx
        have hmem : site ∈ rest := by
          rcases List.mem_cons.mp h with rfl | hm
          · exact absurd rfl hx
          · exact hm
        simpa [List.lookup, hba] using ih hmem

lemma mapExcept_ok {ε α β : Type} (f : α → Except ε β) (l : List α)
    (h : ∀ a ∈ l, ∃ b, f a = .ok b) :
    ∃ r, mapExcept f l = .ok r ∧ r.length = l.length ∧
      ∀ i (hi : i < l.length) (hr : i < r.length), f l[i] = .ok r[i] := by
  induction l with
  | nil =>
      refine ⟨[], rfl, rfl, ?_⟩
      intro i hi hr
      exact absurd hi (Nat.not_lt_zero i)
  | cons a rest ih =>
      obtain ⟨b, hb⟩ := h a (List.mem_cons_self a rest)
      obtain ⟨r, hrok, hlen, helt⟩ := ih fun x hx => h x (List.mem_cons_of_mem a hx)
      refine ⟨b :: r, ?_, by simp [hlen], ?_⟩
      · simp only [mapExcept, hb, hrok]
      · intro i hi hri
        cases i with
        | zero => simpa using hb
        | succ k =>
            simp only [List.getElem_cons_succ]
            simp only [List.length_cons] at hi hri
            exact helt k (by omega) (by omega)

lemma mapExcept_error_head {ε α β : Type} (f : α → Except ε β) (a : α) (l : List α)
    (e : ε) (h : f a = .error e) : mapExcept f (a :: l) = .error e := by
  simp [mapExcept, h]

/-! ### Transfer of the numeric coercion through filtering and grouping -/

lemma coerce_vals (raws : List RawReadingRow) (site : String) :
    ((coerce_water raws).filter fun r => r.site_name = site).filterMap
        (fun r => r.dissolved_oxygen) =
      (raws.filter fun r => r.site_name = site).filterMap
        fun r => to_numeric r.dissolved_oxygen := by
  rw [coerce_water, List.filter_map, List.filterMap_map]
  rfl

lemma site_mem_of_filter {raws : List RawReadingRow} {site : String} {r : RawReadingRow}
    (hr : r ∈ raws.filter fun r => r.site_name = site) :
    site ∈ (coerce_water raws).map fun r => r.site_name := by
  have hr1 := List.mem_filter.mp hr
  simp only [coerce_water, List.map_map]
  exact List.mem_map.mpr ⟨r, hr1.1, by simpa using hr1.2⟩

lemma avg_do_lookup (rows : List ReadingRow) (site : String)
    (hmem : site ∈ rows.map fun r => r.site_name) :
    (avg_do rows).lookup site = some (group_mean rows site) := by
  have hmem2 := (mem_drop_duplicates (rows.map fun r => r.site_name) site).mpr hmem
  exact lookup_map_self _ (fun s => group_mean rows s) site hmem2

/-- Claim C2 (counterexample): deduplicating the reading rows does NOT
yield one entry per distinct station identifier. For the two readings
of `c2rows`, which share the identifier "A" but carry conflicting
coordinates, the station table ends up with two entries, both named
"A": `drop_duplicates` (handler.py line 111) deduplicates the whole
(site_name, latitude, longitude) row, not the identifier. -/
theorem station_dedup_two_rows_same_id :
    (drop_duplicates (c2rows.map stationOfRow)).length = 2 ∧
    ∀ s ∈ drop_duplicates (c2rows.map stationOfRow), s.site_name = "A" := by
  constructor
  · rfl
  · decide

/-- Claim C2 (amended): deduplicating the reading rows yields exactly
one entry per distinct (station identifier, latitude, longitude)
triple — the first occurrence of each triple is kept, in input order —
but a station identifier appearing with conflicting coordinate pairs
retains one entry per distinct pair, not a single first-seen pair. -/
theorem station_dedup_unique_triples (rows : List ReadingRow) :
    (drop_duplicates (rows.map stationOfRow)).Nodup ∧
    (∀ s, s ∈ drop_duplicates (rows.map stationOfRow) ↔ s ∈ rows.map stationOfRow) ∧
    (drop_duplicates (rows.map stationOfRow)).Sublist (rows.map stationOfRow) :=
  ⟨nodup_drop_duplicates _, fun s => mem_drop_duplicates _ s, drop_duplicates_sublist _⟩

/-- Claim C6: for every station, the aggregate metric is the
arithmetic mean of the station's non-null reading values; a value the
coercion cannot parse becomes null without raising and is excluded
from both the numerator and the denominator of the mean. -/
theorem aggregate_mean_excludes_malformed (raws : List RawReadingRow) (site : String)
    (nums : List ℚ)
    (hnums : nums = (raws.filter fun r => r.site_name = site).filterMap
      fun r => to_numeric r.dissolved_oxygen)
    (hne : nums ≠ []) :
    (avg_do (coerce_water raws)).lookup site =
      some (some (nums.sum / (nums.length : ℚ))) := by
  have hmem : site ∈ (coerce_water raws).map fun r => r.site_name := by
    obtain ⟨q, hq⟩ : ∃ q, q ∈ nums := by
      rcases nums with _ | ⟨q, rest⟩
      · exact absurd rfl hne
      · exact ⟨q, List.mem_cons_self q rest⟩
    rw [hnums] at hq
    obtain ⟨r, hr, _⟩ := List.mem_filterMap.mp hq
    exact site_mem_of_filter hr
  rw [avg_do_lookup (coerce_water raws) site hmem]
  have hvals := coerce_vals raws site
  rw [← hnums] at hvals
  have hfalse : nums.isEmpty = false := by
    rcases nums with _ | ⟨q, rest⟩
    · exact absurd rfl hne
    · rfl
  have hgm : group_mean (coerce_water raws) site =
      some (nums.sum / (nums.length : ℚ)) := by
    simp only [group_mean]
    rw [hvals, hfalse]
    simp
  rw [hgm]

/-- Claim C7 (counterexample): a station whose readings are all null
DOES have a row in the aggregate mapping. For `c7rows` — station "A"
with a single malformed reading — the pandas groupby-mean keeps the
group and gives it a null mean, so the aggregate table is
[("A", null)], not empty. -/
theorem all_null_station_has_row :
    avg_do (coerce_water c7rows) = [("A", (none : Option ℚ))] := by
  rfl

/-- Claim C7 (amended): a station present in the reading rows whose
readings are all null has a row in the aggregate mapping whose metric
value is null — still distinguishable from an explicit zero, but
present rather than absent. -/
theorem all_null_station_maps_to_null (raws : List RawReadingRow) (site : String)
    (hmem : site ∈ (coerce_water raws).map fun r => r.site_name)
    (hnull : ∀ r ∈ raws, r.site_name = site → to_numeric r.dissolved_oxygen = none) :
    (avg_do (coerce_water raws)).lookup site = some none := by
  rw [avg_do_lookup (coerce_water raws) site hmem]
  have hvals : ((coerce_water raws).filter fun r => r.site_name = site).filterMap
      (fun r => r.dissolved_oxygen) = [] := by
    rw [coerce_vals raws site]
    rw [List.filterMap_eq_nil_iff]
    intro r hr
    have hr1 := List.mem_filter.mp hr
    exact hnull r hr1.1 (by simpa using hr1.2)
  have hgm : group_mean (coerce_water raws) site = none := by
    simp only [group_mean]
    rw [hvals]
    rfl
  rw [hgm]

/-- Witness for claim C7's amended theorem at the concrete all-null
station: the aggregate row of "A" is present and null. -/
theorem all_null_station_maps_to_null_witness :
    (avg_do (coerce_water c7rows)).lookup "A" = some none :=
  all_null_station_maps_to_null c7rows "A" (by decide) (by decide)

/-- Claim C8 (counterexample): the validator does not enforce the
coordinate range invariant. A raw row with present latitude 100 —
outside [-90, 90] — survives validation unchanged. -/
theorem validator_passes_out_of_range :
    fetch_beaver_validate [c8row] =
      [({ decimalLatitude := 100, decimalLongitude := 0, attrs := [] } : SubjectPoint)] ∧
    ¬((100 : ℚ) ≤ 90) :=
  ⟨rfl, by decide⟩

/-- Claim C8 (amended): the validator's output is no larger than its
input, and every output point's coordinates were present (non-missing)
in its source row — rows missing either coordinate are dropped, not
failed. No range or numeric-validity check is applied, so an output
point need not satisfy the [-90, 90] × [-180, 180] range invariant. -/
theorem validator_size_and_provenance (raws : List RawBeaverRow) :
    (fetch_beaver_validate raws).length ≤ raws.length ∧
    ∀ p ∈ fetch_beaver_validate raws, ∃ r ∈ raws,
      r.decimalLatitude = some p.decimalLatitude ∧
      r.decimalLongitude = some p.decimalLongitude ∧ r.attrs = p.attrs := by
  constructor
  · exact List.length_filterMap_le _ _
  · intro p hp
    obtain ⟨r, hr, hfr⟩ := List.mem_filterMap.mp hp
    refine ⟨r, hr, ?_⟩
    rcases hla : r.decimalLatitude with _ | la
    · rw [hla] at hfr
      simp at hfr
    · rcases hlo : r.decimalLongitude with _ | lo
      · rw [hla, hlo] at hfr
        simp at hfr
      · rw [hla, hlo] at hfr
        simp only [Option.some.injEq] at hfr
        subst hfr
        exact ⟨rfl, rfl, rfl⟩

/-- Witness for claim C6's theorem at the concrete scenario: station
"A" with raw values "7.2", "bad", "8.0" aggregates to mean 7.6; the
malformed value is excluded, not an error. -/
theorem aggregate_mean_excludes_malformed_witness :
    (avg_do (coerce_water c6rows)).lookup "A" = some (some ((76 : ℚ) / 10)) := by
  have h := aggregate_mean_excludes_malformed c6rows "A" [72 / 10, 8]
    (by rfl) (by decide)
  have hmean : (([72 / 10, 8] : List ℚ).sum / ((([72 / 10, 8] : List ℚ).length : ℕ) : ℚ)) =
      (76 : ℚ) / 10 := by
    norm_num [List.sum_cons, List.sum_nil]
  rw [hmean] at h
  exact h

/-! ### Lemmas about `join_row` -/

lemma join_row_ok (stations : List Station) (agg : List (String × Option ℚ))
    (b : SubjectPoint) (hne : stations ≠ []) :
    ∃ rec, join_row stations agg b = .ok rec ∧ rec.beaver = b := by
  have hmap : (stations.map fun s => (s, subject_station_distance b s)) ≠ [] := by
    simpa using hne
  obtain ⟨i, hi, hsome, _, _⟩ := argmin_first_spec _ hmap
  rw [List.length_map] at hi
  refine ⟨⟨b, stations[i], subject_station_distance b stations[i],
    (agg.lookup (stations[i]).site_name).join⟩, ?_, rfl⟩
  simp only [join_row, nearest_station, hsome, List.getElem_map]

lemma join_row_beaver {stations : List Station} {agg : List (String × Option ℚ)}
    {b : SubjectPoint} {rec : JoinedRecord}
    (h : join_row stations agg b = .ok rec) : rec.beaver = b := by
  rcases hns : nearest_station stations b with _ | ⟨s, d⟩
  · simp only [join_row, hns] at h
    exact Except.noConfusion h
  · simp only [join_row, hns] at h
    injection h with h2
    subst h2
    rfl

/-- Claim C1: for every subject point and every non-empty station
table, the matcher returns a station whose distance is a minimum over
all stations together with that distance, and every station occurring
strictly earlier in table order is at strictly greater distance — so
among equidistant minima the first station in iteration order wins. -/
theorem matcher_returns_first_argmin (b : SubjectPoint) (stations : List Station)
    (hne : stations ≠ []) :
    ∃ i, ∃ hi : i < stations.length,
      nearest_station stations b =
        some (stations[i], subject_station_distance b stations[i]) ∧
      (∀ j (hj : j < stations.length),
        subject_station_distance b stations[i] ≤
          subject_station_distance b stations[j]) ∧
      (∀ j (hj : j < stations.length), j < i →
        subject_station_distance b stations[i] <
          subject_station_distance b stations[j]) := by
  have hmap : (stations.map fun s => (s, subject_station_distance b s)) ≠ [] := by
    simpa using hne
  obtain ⟨i, hi, hsome, hmin, hfirst⟩ := argmin_first_spec _ hmap
  rw [List.length_map] at hi
  refine ⟨i, hi, ?_, ?_, ?_⟩
  · rw [nearest_station, hsome]
    simp [List.getElem_map]
  · intro j hj
    have h := hmin j (by simpa using hj)
    simpa [List.getElem_map] using h
  · intro j hj hji
    have h := hfirst j (by simpa using hj) hji
    simpa [List.getElem_map] using h

/-- Witness for claim C1's theorem at the tie-break scenario: subject
`c1subject` against two equidistant stations ordered "X" then "Y". -/
theorem matcher_returns_first_argmin_witness :
    ∃ i, ∃ hi : i < c1stations.length,
      nearest_station c1stations c1subject =
        some (c1stations[i], subject_station_distance c1subject c1stations[i]) ∧
      (∀ j (hj : j < c1stations.length),
        subject_station_distance c1subject c1stations[i] ≤
          subject_station_distance c1subject c1stations[j]) ∧
      (∀ j (hj : j < c1stations.length), j < i →
        subject_station_distance c1subject c1stations[i] <
          subject_station_distance c1subject c1stations[j]) :=
  matcher_returns_first_argmin c1subject c1stations (by decide)

/-- Claim C4: when the station set is empty and the subject set is
non-empty, the join signals the no-stations-available failure (the
`ValueError` of `np.argmin` on an empty sequence), no joined records
are produced, and the failure is surfaced to the Lambda caller as a
500 response rather than swallowed. The station table is derived from
the water readings, so it is empty exactly when the reading table is. -/
theorem empty_station_set_fatal (raws : List RawBeaverRow)
    (hne : fetch_beaver_validate raws ≠ []) :
    spatial_join (fetch_beaver_validate raws) [] = .error .noStationsAvailable ∧
    (∀ recs, spatial_join (fetch_beaver_validate raws) [] ≠ .ok recs) ∧
    ∀ (event : List (String × String)) (s3_put rds_load : Except String Unit),
      (lambda_handler event (.ok raws) (.ok []) s3_put rds_load).statusCode = 500 := by
  have hrow : ∀ b, join_row (drop_duplicates (([] : List ReadingRow).map stationOfRow))
      (avg_do []) b = .error .noStationsAvailable := by
    intro b
    rfl
  have herr : spatial_join (fetch_beaver_validate raws) [] =
      .error .noStationsAvailable := by
    rcases hbs : fetch_beaver_validate raws with _ | ⟨b, rest⟩
    · exact absurd hbs hne
    · simp only [spatial_join]
      exact mapExcept_error_head _ b rest _ (hrow b)
  refine ⟨herr, ?_, ?_⟩
  · intro recs hok
    rw [herr] at hok
    exact Except.noConfusion hok
  · intro ev s3p rdsl
    have hpr : pipeline_run (.ok raws) (.ok []) s3p rdsl =
        .error (describeError .noStationsAvailable) := by
      simp only [pipeline_run]
      rw [show coerce_water [] = ([] : List ReadingRow) from rfl, herr]
      rfl
    simp [lambda_handler, hpr]

/-- Witness for claim C4's theorem at a concrete one-subject input
with an empty reading (hence station) table. -/
theorem empty_station_set_fatal_witness :
    spatial_join (fetch_beaver_validate c5raws) [] = .error .noStationsAvailable ∧
    (∀ recs, spatial_join (fetch_beaver_validate c5raws) [] ≠ .ok recs) ∧
    ∀ (event : List (String × String)) (s3_put rds_load : Except String Unit),
      (lambda_handler event (.ok c5raws) (.ok []) s3_put rds_load).statusCode = 500 :=
  empty_station_set_fatal c5raws (by decide)

/-- Claim C5: whenever the station table is non-empty (i.e. there is
at least one reading row), the join succeeds and produces exactly one
joined record per valid subject point, in input order: the i-th record
carries the i-th validated subject row, whatever the aggregate table
holds (left-join semantics never drop a subject row). -/
theorem join_left_complete_ordered (raws : List RawBeaverRow)
    (df_water : List ReadingRow) (hw : df_water ≠ []) :
    ∃ recs, spatial_join (fetch_beaver_validate raws) df_water = .ok recs ∧
      recs.length = (fetch_beaver_validate raws).length ∧
      ∀ i (hi : i < recs.length) (hb : i < (fetch_beaver_validate raws).length),
        (recs[i]).beaver = (fetch_beaver_validate raws)[i] := by
  have hst : drop_duplicates (df_water.map stationOfRow) ≠ [] :=
    drop_duplicates_ne_nil _ (by simpa using hw)
  have hall : ∀ b ∈ fetch_beaver_validate raws, ∃ rec,
      join_row (drop_duplicates (df_water.map stationOfRow)) (avg_do df_water) b =
        .ok rec := by
    intro b _
    obtain ⟨rec, hok, _⟩ := join_row_ok _ (avg_do df_water) b hst
    exact ⟨rec, hok⟩
  obtain ⟨recs, hok, hlen, helt⟩ := mapExcept_ok _ (fetch_beaver_validate raws) hall
  refine ⟨recs, ?_, hlen, ?_⟩
  · simpa only [spatial_join] using hok
  · intro i hi hb
    exact join_row_beaver (helt i hb hi)

/-- Witness for claim C5's theorem at a concrete one-subject,
one-reading input. -/
theorem join_left_complete_ordered_witness :
    ∃ recs, spatial_join (fetch_beaver_validate c5raws) c5water = .ok recs ∧
      recs.length = (fetch_beaver_validate c5raws).length ∧
      ∀ i (hi : i < recs.length) (hb : i < (fetch_beaver_validate c5raws).length),
        (recs[i]).beaver = (fetch_beaver_validate c5raws)[i] :=
  join_left_complete_ordered c5raws c5water (by decide)

/-- Claim C9 (counterexample): the haversine distance of the source is
NOT nonzero for every pair of distinct points: the distinct coordinate
pairs (90, 0) and (90, 10) both denote the north pole, where the
latitude difference vanishes and cos(π/2) = 0 annihilates the
longitude term, so the computed distance is exactly 0. -/
theorem haversine_zero_for_distinct_points :
    haversine 90 0 90 10 = 0 ∧ (0 : ℝ) ≠ 10 := by
  constructor
  · rw [haversine]
    have hc : Real.cos ((90 : ℝ) * Real.pi / 180) = 0 := by
      rw [show (90 : ℝ) * Real.pi / 180 = Real.pi / 2 by ring, Real.cos_pi_div_two]
    rw [hc]
    simp [sub_self, Real.sqrt_zero, Real.arcsin_zero]
  · norm_num

/-- Claim C9 (amended): the haversine distance of the source is
exactly symmetric in its two points, and the distance from any point
to itself is exactly 0; but zero distance does not imply the two
coordinate pairs are identical (distinct pairs naming the same
geographic point, such as two longitudes at a pole, are at distance
zero). -/
theorem haversine_symm_and_self_zero (lat1 lon1 lat2 lon2 : ℝ) :
    haversine lat1 lon1 lat2 lon2 = haversine lat2 lon2 lat1 lon1 ∧
    haversine lat1 lon1 lat1 lon1 = 0 := by
  constructor
  · rw [haversine, haversine]
    have hs : ∀ x y : ℝ, Real.sin ((x - y) / 2) ^ 2 = Real.sin ((y - x) / 2) ^ 2 := by
      intro x y
      rw [show (x - y) / 2 = -((y - x) / 2) by ring, Real.sin_neg, neg_sq]
    rw [hs (lat2 * Real.pi / 180) (lat1 * Real.pi / 180),
      hs (lon2 * Real.pi / 180) (lon1 * Real.pi / 180),
      mul_comm (Real.cos (lat1 * Real.pi / 180)) (Real.cos (lat2 * Real.pi / 180))]
  · rw [haversine]
    simp [sub_self, Real.sqrt_zero, Real.arcsin_zero]

/-- Claim C10: the pipeline entry point never lets a failure escape:
for every event and every outcome of the effectful steps, the handler
returns either status 200 with the record-count message or status 500
with the error message. -/
theorem lambda_handler_no_escape (event : List (String × String))
    (fetch_beavers : Except String (List RawBeaverRow))
    (fetch_water : Except String (List RawReadingRow))
    (s3_put rds_load : Except String Unit) :
    ((lambda_handler event fetch_beavers fetch_water s3_put rds_load).statusCode = 200 ∧
      ∃ n : ℕ, (lambda_handler event fetch_beavers fetch_water s3_put rds_load).body =
        "Pipeline complete. " ++ toString n ++ " records processed.") ∨
    ((lambda_handler event fetch_beavers fetch_water s3_put rds_load).statusCode = 500 ∧
      ∃ msg : String, (lambda_handler event fetch_beavers fetch_water s3_put rds_load).body =
        "Pipeline failed: " ++ msg) := by
  rcases hpr : pipeline_run fetch_beavers fetch_water s3_put rds_load with e | n
  · exact Or.inr ⟨by simp [lambda_handler, hpr], e, by simp [lambda_handler, hpr]⟩
  · exact Or.inl ⟨by simp [lambda_handler, hpr], n, by simp [lambda_handler, hpr]⟩

/-! ### Exact-arithmetic bounds on the haversine intermediate value

In exact real arithmetic the intermediate value `a` of handler.py line
127 always lies in [0, 1], so the clamp the spec prescribes never
changes the value: the clamped and unclamped formulas coincide and the
distance is non-negative on every input pair. (Whether the source's
floating-point evaluation can overshoot this interval is a property of
IEEE-754 rounding, outside this embedding.) -/

lemma sin_half_sq (u : ℝ) : Real.sin (u / 2) ^ 2 = 1 / 2 - Real.cos u / 2 := by
  rw [Real.sin_sq_eq_half_sub, show 2 * (u / 2) = u by ring]

lemma sin_cos_inner_le_one (x1 x2 y : ℝ) :
    -1 ≤ Real.sin x1 * Real.sin x2 + Real.cos x1 * Real.cos x2 * Real.cos y ∧
    Real.sin x1 * Real.sin x2 + Real.cos x1 * Real.cos x2 * Real.cos y ≤ 1 := by
  have h1 := Real.sin_sq_add_cos_sq x1
  have h2 := Real.sin_sq_add_cos_sq x2
  have hy1 := Real.neg_one_le_cos y
  have hy2 := Real.cos_le_one y
  have hcy : (0 : ℝ) ≤ (1 - Real.cos y) * (1 + Real.cos y) * Real.cos x2 ^ 2 :=
    mul_nonneg (mul_nonneg (by linarith) (by linarith)) (sq_nonneg _)
  have hD := sq_nonneg
    (Real.sin x1 * (Real.cos x2 * Real.cos y) - Real.cos x1 * Real.sin x2)
  constructor
  · nlinarith [sq_nonneg (Real.sin x1 * Real.sin x2 +
      Real.cos x1 * Real.cos x2 * Real.cos y + 1)]
  · nlinarith [sq_nonneg (Real.sin x1 * Real.sin x2 +
      Real.cos x1 * Real.cos x2 * Real.cos y - 1)]

lemma haversine_arg_bounds (x1 x2 y : ℝ) :
    0 ≤ Real.sin ((x2 - x1) / 2) ^ 2 +
        Real.cos x1 * Real.cos x2 * Real.sin (y / 2) ^ 2 ∧
    Real.sin ((x2 - x1) / 2) ^ 2 +
        Real.cos x1 * Real.cos x2 * Real.sin (y / 2) ^ 2 ≤ 1 := by
  obtain ⟨hlo, hhi⟩ := sin_cos_inner_le_one x1 x2 y
  rw [sin_half_sq, sin_half_sq, Real.cos_sub]
  constructor
  · nlinarith [hhi]
  · nlinarith [hlo]

/-- In exact arithmetic the clamp of spec section 4.2 is the identity:
the spec-modelled `haversine_clamped` and the source's `haversine`
agree on every input pair. -/
lemma haversine_clamped_eq (lat1 lon1 lat2 lon2 : ℝ) :
    haversine_clamped lat1 lon1 lat2 lon2 = haversine lat1 lon1 lat2 lon2 := by
  rw [haversine, haversine_clamped]
  obtain ⟨h0, h1⟩ := haversine_arg_bounds (lat1 * Real.pi / 180)
    (lat2 * Real.pi / 180) (lon2 * Real.pi / 180 - lon1 * Real.pi / 180)
  rw [max_eq_right h0, min_eq_right h1]

/-- In exact arithmetic every computed haversine distance is
non-negative, clamp or no clamp. -/
lemma haversine_nonneg (lat1 lon1 lat2 lon2 : ℝ) :
    0 ≤ haversine lat1 lon1 lat2 lon2 := by
  rw [haversine]
  have h := Real.arcsin_nonneg.mpr (Real.sqrt_nonneg
    (Real.sin ((lat2 * Real.pi / 180 - lat1 * Real.pi / 180) / 2) ^ 2 +
      Real.cos (lat1 * Real.pi / 180) * Real.cos (lat2 * Real.pi / 180) *
        Real.sin ((lon2 * Real.pi / 180 - lon1 * Real.pi / 180) / 2) ^ 2))
  nlinarith [h]
